import Mathlib

/-!
Verification of the ResGuard repository (src/ResGuard.hpp).

The single component is the class template safe::unique_resource<T>: a value
payload value_ : T, a flag valid_ (member-initialised to true), and a
deleter pointer deleter_ : void (*)(T&) noexcept.  We embed the state as a
Lean structure over two type parameters: alpha is the resource type T and
delta identifies a deleter function; the member deleter_ becomes Option delta,
with none standing for the null function pointer.

Side effects are made explicit: every operation that may invoke the deleter
returns, besides the successor state, the list of deleter invocations it
performed, each recorded as a pair (deleter, argument value).  std::terminate
in the converting constructor is modelled by an Option result (none means the
process terminated).  A value that C++ leaves in a moved-from state is
modelled as unchanged, which is the behaviour for the scalar handle types the
repository targets; no claim inspects a moved-from payload except through
release_ownership, whose doc comment notes the convention.

Aliasing matters for operator= (the source compares this != &other), so move
assignment is additionally embedded as an operation on a store of guards
indexed by Fin n, where index equality plays the role of pointer equality.
-/

namespace safe

/-- State of safe::unique_resource<T> (src/ResGuard.hpp, lines 12-114):
payload value_, flag valid_, and deleter_ modelled as Option delta with
none for the null function pointer. -/
structure unique_resource (α δ : Type) where
  value_ : α
  valid_ : Bool
  deleter_ : Option δ
  deriving DecidableEq

/-- Private member release() (lines 24-31):
if (valid_ && deleter_) \x7b deleter_(value_); valid_ = false; \x7d.
Returns the successor state and the list of deleter invocations performed. -/
def unique_resource.release {α δ : Type} (g : unique_resource α δ) :
    unique_resource α δ × List (δ × α) :=
  if g.valid_ then
    match g.deleter_ with
    | some d => ({ g with valid_ := false }, [(d, g.value_)])
    | none => (g, [])
  else (g, [])

/-- Converting constructor (lines 37-42): initialises value_ from res and
deleter_ from d, then runs if (!d) std::terminate().  Termination is
modelled as none; a completed construction is some of the initialised
state. -/
def unique_resource.construct {α δ : Type} (res : α) (d : Option δ) :
    Option (unique_resource α δ) :=
  match d with
  | none => none
  | some _ => some { value_ := res, valid_ := true, deleter_ := d }

/-- Destructor (lines 44-47): calls release().  Only the invocation list is
observable after the object ends its lifetime. -/
def unique_resource.destruct {α δ : Type} (g : unique_resource α δ) :
    List (δ × α) :=
  g.release.2

/-- Move constructor (lines 49-54): the new object takes value_ (by move),
valid_ via std::exchange(other.valid_, false) and deleter_ from other.
Result is (new object, source after the move); the moved-from payload is
modelled as unchanged. -/
def unique_resource.moveConstruct {α δ : Type} (other : unique_resource α δ) :
    unique_resource α δ × unique_resource α δ :=
  ({ value_ := other.value_, valid_ := other.valid_, deleter_ := other.deleter_ },
   { other with valid_ := false })

/-- Body of operator=(unique_resource&&) for distinct objects
(lines 58-64): release() on the destination, then value_ moved from the
source, valid_ via std::exchange(other.valid_, false), deleter_ copied.
Result is (destination after, source after, deleter invocations). -/
def unique_resource.moveAssignDistinct {α δ : Type}
    (dst src : unique_resource α δ) :
    unique_resource α δ × unique_resource α δ × List (δ × α) :=
  let rel := dst.release
  ({ value_ := src.value_, valid_ := src.valid_, deleter_ := src.deleter_ },
   { src with valid_ := false },
   rel.2)

/-- operator=(unique_resource&&) (lines 56-66) acting on a store of guards:
the guard this != &other becomes an index comparison; when the indices
coincide the body is skipped and no deleter runs. -/
def moveAssignAt {α δ : Type} {n : Nat} (s : Fin n → unique_resource α δ)
    (i j : Fin n) : (Fin n → unique_resource α δ) × List (δ × α) :=
  if i = j then (s, [])
  else
    let r := unique_resource.moveAssignDistinct (s i) (s j)
    (Function.update (Function.update s i r.1) j r.2.1, r.2.2)

/-- explicit operator bool() (lines 91-94): returns valid_. -/
def unique_resource.operatorBool {α δ : Type} (g : unique_resource α δ) : Bool :=
  g.valid_

/-- reset() (lines 96-99): calls release(). -/
def unique_resource.reset {α δ : Type} (g : unique_resource α δ) :
    unique_resource α δ × List (δ × α) :=
  g.release

/-- release_ownership() (lines 101-105): valid_ = false; return
std::move(value_).  The body contains no deleter call, hence the empty
invocation list.  Result is (returned value, guard after, invocations). -/
def unique_resource.release_ownership {α δ : Type} (g : unique_resource α δ) :
    α × unique_resource α δ × List (δ × α) :=
  (g.value_, { g with valid_ := false }, [])

/-- Member swap(unique_resource&) (lines 107-113): exchanges value_, valid_
and deleter_ field by field via std::swap.  Result is (this after, other
after). -/
def unique_resource.swap {α δ : Type} (a b : unique_resource α δ) :
    unique_resource α δ × unique_resource α δ :=
  ({ value_ := b.value_, valid_ := b.valid_, deleter_ := b.deleter_ },
   { value_ := a.value_, valid_ := a.valid_, deleter_ := a.deleter_ })

/-- Free function safe::swap (lines 137-141): forwards to a.swap(b). -/
def swap {α δ : Type} (a b : unique_resource α δ) :
    unique_resource α δ × unique_resource α δ :=
  a.swap b

/-- Observable outcome of one run of the release action produced by the
factory adapter: the wrapped callable returned normally, or raised and the
adapter called std::terminate, or an error escaped the adapter (which the
code is designed to make impossible). -/
inductive AdapterOutcome (ε : Type) where
  | normal : AdapterOutcome ε
  | terminated : ε → AdapterOutcome ε
  | propagated : ε → AdapterOutcome ε
  deriving DecidableEq

/-- The adapter body of make_unique_resource (lines 122-132): try invoking
the underlying callable on the held value; catch (...) turns any raised
error into std::terminate, so the error is never rethrown past the
adapter.  The underlying callable is modelled as returning Except, where
error e is a raised exception. -/
def adaptDeleter {α ε : Type} (deleter : α → Except ε Unit) :
    α → AdapterOutcome ε :=
  fun v =>
    match deleter v with
    | Except.ok _ => AdapterOutcome.normal
    | Except.error e => AdapterOutcome.terminated e

/-- Factory make_unique_resource (lines 116-135): wraps the callable in the
fixed-signature adapter and constructs unique_resource over the decayed
resource type from the value and the adapter.  The adapter is a definite
function (never the null pointer), so construction completes. -/
def make_unique_resource {α ε : Type} (res : α) (deleter : α → Except ε Unit) :
    Option (unique_resource α (α → AdapterOutcome ε)) :=
  unique_resource.construct res (some (adaptDeleter deleter))

/-- Guards reachable from a completed construction by the public operations:
move construction (either side), move assignment between distinct objects
(either side), reset, release_ownership and swap (either side). -/
inductive Reachable {α δ : Type} : unique_resource α δ → Prop where
  | construct (res : α) (d : δ) :
      Reachable { value_ := res, valid_ := true, deleter_ := some d }
  | moveConstructNew {g : unique_resource α δ} :
      Reachable g → Reachable g.moveConstruct.1
  | moveConstructOld {g : unique_resource α δ} :
      Reachable g → Reachable g.moveConstruct.2
  | moveAssignDst {g h : unique_resource α δ} :
      Reachable g → Reachable h → Reachable (g.moveAssignDistinct h).1
  | moveAssignSrc {g h : unique_resource α δ} :
      Reachable g → Reachable h → Reachable (g.moveAssignDistinct h).2.1
  | resetStep {g : unique_resource α δ} :
      Reachable g → Reachable g.reset.1
  | releaseOwnershipStep {g : unique_resource α δ} :
      Reachable g → Reachable g.release_ownership.2.1
  | swapFst {g h : unique_resource α δ} :
      Reachable g → Reachable h → Reachable (g.swap h).1
  | swapSnd {g h : unique_resource α δ} :
      Reachable g → Reachable h → Reachable (g.swap h).2

/-- release() never changes the stored deleter pointer: it only clears
valid_ after a successful invocation. -/
theorem release_preserves_deleter {α δ : Type} (g : unique_resource α δ) :
    g.release.1.deleter_ = g.deleter_ := by
  unfold unique_resource.release
  cases hv : g.valid_ <;> cases hd : g.deleter_ <;> simp [hv, hd]

/-- Claim C1: destroying a valid guard with deleter d invokes d exactly once
on the held value; after reset() the destructor invokes nothing further,
and a second reset() is a no-op (no invocation, state unchanged). -/
theorem destroy_and_reset_release_once {α δ : Type} (g : unique_resource α δ)
    (d : δ) (hv : g.valid_ = true) (hd : g.deleter_ = some d) :
    g.destruct = [(d, g.value_)] ∧
    g.reset.2 = [(d, g.value_)] ∧
    g.reset.1.destruct = [] ∧
    g.reset.1.reset = (g.reset.1, []) := by
  simp [unique_resource.destruct, unique_resource.reset,
        unique_resource.release, hv, hd]

theorem destroy_and_reset_release_once_witness :
    (⟨42, true, some 0⟩ : unique_resource Nat Nat).destruct = [(0, 42)] ∧
    (⟨42, true, some 0⟩ : unique_resource Nat Nat).reset.2 = [(0, 42)] ∧
    (⟨42, true, some 0⟩ : unique_resource Nat Nat).reset.1.destruct = [] ∧
    (⟨42, true, some 0⟩ : unique_resource Nat Nat).reset.1.reset =
      ((⟨42, true, some 0⟩ : unique_resource Nat Nat).reset.1, []) :=
  destroy_and_reset_release_once ⟨42, true, some 0⟩ 0 rfl rfl

/-- Claim C4: constructing with a null deleter terminates the process
(modelled as none); constructing with a non-null deleter succeeds, taking
the value and recording the deleter, with valid_ initially true. -/
theorem construct_requires_releaser {α δ : Type} (res : α) (d : δ) :
    unique_resource.construct res (none : Option δ) = none ∧
    unique_resource.construct res (some d) =
      some { value_ := res, valid_ := true, deleter_ := some d } := by
  exact ⟨rfl, rfl⟩

/-- Claim C2: move construction from a valid guard leaves the source invalid
(its boolean conversion is false) and the new guard valid, holding the old
value and deleter; destroying the source afterwards invokes nothing. -/
theorem move_construct_transfers_ownership {α δ : Type}
    (g : unique_resource α δ) (hv : g.valid_ = true) :
    g.moveConstruct.2.operatorBool = false ∧
    g.moveConstruct.1.operatorBool = true ∧
    g.moveConstruct.1.value_ = g.value_ ∧
    g.moveConstruct.1.deleter_ = g.deleter_ ∧
    g.moveConstruct.2.destruct = [] := by
  simp [unique_resource.moveConstruct, unique_resource.operatorBool,
        unique_resource.destruct, unique_resource.release, hv]

theorem move_construct_transfers_ownership_witness :
    (⟨7, true, some 1⟩ : unique_resource Nat Nat).moveConstruct.2.operatorBool
      = false ∧
    (⟨7, true, some 1⟩ : unique_resource Nat Nat).moveConstruct.1.operatorBool
      = true ∧
    (⟨7, true, some 1⟩ : unique_resource Nat Nat).moveConstruct.1.value_ = 7 ∧
    (⟨7, true, some 1⟩ : unique_resource Nat Nat).moveConstruct.1.deleter_
      = some 1 ∧
    (⟨7, true, some 1⟩ : unique_resource Nat Nat).moveConstruct.2.destruct
      = [] :=
  move_construct_transfers_ownership ⟨7, true, some 1⟩ rfl

/-- Claim C3 (behaviour of the written body): move assignment between
distinct guards, with a valid destination carrying deleter d, invokes d
exactly once on the original destination value before absorbing the
source, then copies value, validity and deleter from the source and leaves
the source invalid; other guards in the store are untouched. -/
theorem move_assign_releases_destination_first {α δ : Type} {n : Nat}
    (s : Fin n → unique_resource α δ) (i j : Fin n) (hne : i ≠ j) (d : δ)
    (hv : (s i).valid_ = true) (hd : (s i).deleter_ = some d) :
    (moveAssignAt s i j).2 = [(d, (s i).value_)] ∧
    ((moveAssignAt s i j).1 i).value_ = (s j).value_ ∧
    ((moveAssignAt s i j).1 i).valid_ = (s j).valid_ ∧
    ((moveAssignAt s i j).1 i).deleter_ = (s j).deleter_ ∧
    ((moveAssignAt s i j).1 j).valid_ = false ∧
    (∀ k, k ≠ i → k ≠ j → (moveAssignAt s i j).1 k = s k) := by
  unfold moveAssignAt
  rw [if_neg hne]
  refine ⟨?_, ?_, ?_, ?_, ?_, ?_⟩
  · simp [unique_resource.moveAssignDistinct, unique_resource.release, hv, hd]
  · simp [Function.update_noteq hne, Function.update_same,
          unique_resource.moveAssignDistinct]
  · simp [Function.update_noteq hne, Function.update_same,
          unique_resource.moveAssignDistinct]
  · simp [Function.update_noteq hne, Function.update_same,
          unique_resource.moveAssignDistinct]
  · simp [Function.update_same, unique_resource.moveAssignDistinct]
  · intro k hki hkj
    simp [Function.update_noteq hkj, Function.update_noteq hki]

theorem move_assign_releases_destination_first_witness :
    (moveAssignAt
      (![⟨1, true, some 10⟩, ⟨2, true, some 20⟩] :
        Fin 2 → unique_resource Nat Nat) 0 1).2 = [(10, 1)] ∧
    ((moveAssignAt
      (![⟨1, true, some 10⟩, ⟨2, true, some 20⟩] :
        Fin 2 → unique_resource Nat Nat) 0 1).1 0).value_ = 2 ∧
    ((moveAssignAt
      (![⟨1, true, some 10⟩, ⟨2, true, some 20⟩] :
        Fin 2 → unique_resource Nat Nat) 0 1).1 0).valid_ = true ∧
    ((moveAssignAt
      (![⟨1, true, some 10⟩, ⟨2, true, some 20⟩] :
        Fin 2 → unique_resource Nat Nat) 0 1).1 0).deleter_ = some 20 ∧
    ((moveAssignAt
      (![⟨1, true, some 10⟩, ⟨2, true, some 20⟩] :
        Fin 2 → unique_resource Nat Nat) 0 1).1 1).valid_ = false ∧
    (∀ k, k ≠ 0 → k ≠ 1 →
      (moveAssignAt
        (![⟨1, true, some 10⟩, ⟨2, true, some 20⟩] :
          Fin 2 → unique_resource Nat Nat) 0 1).1 k =
        (![⟨1, true, some 10⟩, ⟨2, true, some 20⟩] :
          Fin 2 → unique_resource Nat Nat) k) :=
  move_assign_releases_destination_first
    ![⟨1, true, some 10⟩, ⟨2, true, some 20⟩] 0 1 (by decide) 10 rfl rfl

/-- Claim C5 (behaviour of the written adapter body): the factory returns a
guard over the value with the adapted deleter installed and valid; the
adapter invokes the underlying callable on the held value, never lets an
error propagate, maps a normal return of the callable to a normal return,
and maps a raised error to process termination. -/
theorem make_unique_resource_adapter_spec {α ε : Type} (res v : α)
    (deleter : α → Except ε Unit) (e : ε) :
    make_unique_resource res deleter =
      some { value_ := res, valid_ := true,
             deleter_ := some (adaptDeleter deleter) } ∧
    adaptDeleter deleter v ≠ AdapterOutcome.propagated e ∧
    (deleter v = Except.ok () → adaptDeleter deleter v = AdapterOutcome.normal) ∧
    (deleter v = Except.error e →
      adaptDeleter deleter v = AdapterOutcome.terminated e) := by
  refine ⟨rfl, ?_, ?_, ?_⟩
  · cases hdv : deleter v <;> simp [adaptDeleter, hdv]
  · intro hdv
    simp [adaptDeleter, hdv]
  · intro hdv
    simp [adaptDeleter, hdv]

theorem make_unique_resource_adapter_spec_witness :
    make_unique_resource 42 (fun _ : Nat => (Except.error () : Except Unit Unit))
      = some { value_ := 42, valid_ := true,
               deleter_ := some (adaptDeleter
                 (fun _ : Nat => (Except.error () : Except Unit Unit))) } ∧
    adaptDeleter (fun _ : Nat => (Except.error () : Except Unit Unit)) 7
      ≠ AdapterOutcome.propagated () ∧
    ((fun _ : Nat => (Except.error () : Except Unit Unit)) 7 = Except.ok () →
      adaptDeleter (fun _ : Nat => (Except.error () : Except Unit Unit)) 7
        = AdapterOutcome.normal) ∧
    ((fun _ : Nat => (Except.error () : Except Unit Unit)) 7 = Except.error () →
      adaptDeleter (fun _ : Nat => (Except.error () : Except Unit Unit)) 7
        = AdapterOutcome.terminated ()) :=
  make_unique_resource_adapter_spec 42 7
    (fun _ : Nat => (Except.error () : Except Unit Unit)) ()

/-- Claim C6: release_ownership() hands the owned value back, performs no
deleter invocation, leaves the guard invalid, and the subsequent
destruction of the guard invokes nothing. -/
theorem release_ownership_disarms {α δ : Type} (g : unique_resource α δ) :
    g.release_ownership.1 = g.value_ ∧
    g.release_ownership.2.1.valid_ = false ∧
    g.release_ownership.2.2 = [] ∧
    g.release_ownership.2.1.destruct = [] := by
  simp [unique_resource.release_ownership, unique_resource.destruct,
        unique_resource.release]

/-- Claim C7: member swap exchanges value, validity and deleter completely,
so the first result equals the second argument and vice versa; the free
function forwards to the member; destroying either guard afterwards
releases the post-swap value exactly once with the post-swap deleter. -/
theorem swap_exchanges_states {α δ : Type} (a b : unique_resource α δ)
    (da db : δ) (hva : a.valid_ = true) (hda : a.deleter_ = some da)
    (hvb : b.valid_ = true) (hdb : b.deleter_ = some db) :
    (a.swap b).1 = b ∧ (a.swap b).2 = a ∧
    safe.swap a b = a.swap b ∧
    (a.swap b).1.destruct = [(db, b.value_)] ∧
    (a.swap b).2.destruct = [(da, a.value_)] := by
  refine ⟨rfl, rfl, rfl, ?_, ?_⟩
  · simp [unique_resource.swap, unique_resource.destruct,
          unique_resource.release, hvb, hdb]
  · simp [unique_resource.swap, unique_resource.destruct,
          unique_resource.release, hva, hda]

theorem swap_exchanges_states_witness :
    ((⟨1, true, some 10⟩ : unique_resource Nat Nat).swap ⟨2, true, some 20⟩).1
      = ⟨2, true, some 20⟩ ∧
    ((⟨1, true, some 10⟩ : unique_resource Nat Nat).swap ⟨2, true, some 20⟩).2
      = ⟨1, true, some 10⟩ ∧
    safe.swap (⟨1, true, some 10⟩ : unique_resource Nat Nat) ⟨2, true, some 20⟩
      = (⟨1, true, some 10⟩ : unique_resource Nat Nat).swap ⟨2, true, some 20⟩ ∧
    ((⟨1, true, some 10⟩ : unique_resource Nat Nat).swap
      ⟨2, true, some 20⟩).1.destruct = [(20, 2)] ∧
    ((⟨1, true, some 10⟩ : unique_resource Nat Nat).swap
      ⟨2, true, some 20⟩).2.destruct = [(10, 1)] :=
  swap_exchanges_states ⟨1, true, some 10⟩ ⟨2, true, some 20⟩ 10 20
    rfl rfl rfl rfl

/-- Claim C8 (behaviour of the written body): self move assignment takes the
this == &other branch, so the store is unchanged and no deleter runs. -/
theorem self_move_assign_is_noop {α δ : Type} {n : Nat}
    (s : Fin n → unique_resource α δ) (i : Fin n) :
    moveAssignAt s i i = (s, []) := by
  simp [moveAssignAt]

/-- Claim C9: every guard reachable from a completed construction through
move construction, move assignment, reset, release_ownership and swap
carries a non-null deleter pointer, so no operation ever invokes a null
deleter. -/
theorem reachable_deleter_nonnull {α δ : Type} (g : unique_resource α δ)
    (h : Reachable g) : g.deleter_ ≠ none := by
  induction h with
  | construct res d => simp
  | moveConstructNew _ ih =>
      simpa [unique_resource.moveConstruct] using ih
  | moveConstructOld _ ih =>
      simpa [unique_resource.moveConstruct] using ih
  | moveAssignDst _ _ _ ihsrc =>
      simpa [unique_resource.moveAssignDistinct] using ihsrc
  | moveAssignSrc _ _ _ ihsrc =>
      simpa [unique_resource.moveAssignDistinct] using ihsrc
  | resetStep _ ih =>
      simpa [unique_resource.reset, release_preserves_deleter] using ih
  | releaseOwnershipStep _ ih =>
      simpa [unique_resource.release_ownership] using ih
  | swapFst _ _ _ ihb =>
      simpa [unique_resource.swap] using ihb
  | swapSnd _ _ iha _ =>
      simpa [unique_resource.swap] using iha

theorem reachable_deleter_nonnull_witness :
    (⟨3, true, some 5⟩ : unique_resource Nat Nat).deleter_ ≠ none :=
  reachable_deleter_nonnull ⟨3, true, some 5⟩ (Reachable.construct 3 5)

/-- Claim C10: release_ownership() on an already invalid guard performs no
deleter invocation, leaves the guard unchanged (still invalid), and still
returns the stored payload; destroying the guard afterwards invokes
nothing. -/
theorem release_ownership_on_invalid_guard {α δ : Type}
    (g : unique_resource α δ) (hv : g.valid_ = false) :
    g.release_ownership.1 = g.value_ ∧
    g.release_ownership.2.1 = g ∧
    g.release_ownership.2.2 = [] ∧
    g.release_ownership.2.1.destruct = [] := by
  obtain ⟨val, vb, del⟩ := g
  simp only at hv
  subst hv
  simp [unique_resource.release_ownership, unique_resource.destruct,
        unique_resource.release]

theorem release_ownership_on_invalid_guard_witness :
    (⟨9, false, some 4⟩ : unique_resource Nat Nat).release_ownership.1 = 9 ∧
    (⟨9, false, some 4⟩ : unique_resource Nat Nat).release_ownership.2.1
      = ⟨9, false, some 4⟩ ∧
    (⟨9, false, some 4⟩ : unique_resource Nat Nat).release_ownership.2.2 = [] ∧
    (⟨9, false, some 4⟩ :
      unique_resource Nat Nat).release_ownership.2.1.destruct = [] :=
  release_ownership_on_invalid_guard ⟨9, false, some 4⟩ rfl

end safe
